import Mathlib

/-!
Shallow embedding of the file-browser component `src/src/app/app.component.ts`
(class `AppComponent`): the data model, the pure `formatSize` helper, and the
state transition performed by each method and by each HTTP subscribe handler
(success / error callback).  HTTP traffic is modelled by the list of requests
a transition emits; the DOM effect on the upload `<input>` element is modelled
by threading an `UploadInput` record through the upload handlers.
-/

/-- An entry of the hierarchy (interface `FileItem` in the source).
Optional fields of the TypeScript interface become `Option`. -/
structure FileItem where
  id : String
  parentId : Option String
  name : String
  folder : Bool
  creation : String
  modification : String
  filePath : Option String := none
  mimeType : Option String := none
  size : Option Nat := none
  deriving Repr, DecidableEq

/-- A breadcrumb segment (interface `PathItem` in the source). -/
structure PathItem where
  id : String
  name : String
  folder : Bool
  deriving Repr, DecidableEq

/-- The mutable fields of `AppComponent`. -/
structure ComponentState where
  items : List FileItem
  path : List PathItem
  currentParentId : Option String
  loading : Bool
  errorMessage : String
  newFolderName : String
  uploading : Bool
  deriving Repr, DecidableEq

/-- The upload `<input>` element, as far as the component reads or writes it:
its `value` string and the first entry of its `files` list (`files?.[0]`),
modelled by the selected file's name when one is present. -/
structure UploadInput where
  value : String
  file : Option String
  deriving Repr, DecidableEq

/-- The breadcrumb segment `{ id: 'root', name: 'Root', folder: true }`. -/
def rootSegment : PathItem := { id := "root", name := "Root", folder := true }

/-- Field initializers of `AppComponent`. -/
def initialState : ComponentState :=
  { items := []
    path := [rootSegment]
    currentParentId := none
    loading := false
    errorMessage := ""
    newFolderName := ""
    uploading := false }

/-- JavaScript truthiness of a `string | null | undefined` value:
`null` / `undefined` and the empty string are falsy. -/
def jsTruthy : Option String → Bool
  | none => false
  | some s => if s = "" then false else true

/-- An HTTP request the component can issue, carrying the data the source
puts into the URL, query parameters or body. -/
inductive Request where
  /-- `GET /api/items`, with a `parentId` query parameter when present. -/
  | list (parentId : Option String)
  /-- `GET /api/items/{id}/path`. -/
  | path (id : String)
  /-- `GET /api/items/{id}` with a blob response. -/
  | download (id : String)
  /-- `POST /api/items` with multipart form data: the file under `files`,
  and a `parentId` part when present. -/
  | upload (fileName : String) (parentId : Option String)
  /-- `POST /api/items` with JSON body `{ name, folder, parentId }`. -/
  | createItem (name : String) (folder : Bool) (parentId : Option String)
  /-- `DELETE /api/items/{id}`. -/
  | delete (id : String)
  deriving Repr, DecidableEq

/-- The optional parameter produced by `if (x) { params.set(..., x) }` /
`if (x) { formData.append(..., x) }`: attached only when truthy. -/
def truthyParam (o : Option String) : Option String :=
  if jsTruthy o then o else none

/-- The parsed JSON body of a failed response (`error.error` on
`HttpErrorResponse`), with its optional `desc` and `message` fields. -/
structure ErrBody where
  desc : Option String := none
  message : Option String := none
  deriving Repr, DecidableEq

/-- `(error.error && (error.error.desc || error.error.message)) || ''` of
`handleError`: the body's `desc` if truthy, else its `message` if truthy,
else the empty string.  A `none` body models a null / absent `error.error`. -/
def apiMessageOf : Option ErrBody → String
  | none => ""
  | some b =>
    match b.desc with
    | some d => if d = "" then b.message.getD "" else d
    | none => b.message.getD ""

/-- Method `handleError(error, fallbackMessage)`: set `errorMessage` to the
fallback, suffixed with a space and the server-supplied text when that text
is truthy, and clear `loading`. -/
def handleError (e : Option ErrBody) (fallbackMessage : String)
    (s : ComponentState) : ComponentState :=
  { s with
    errorMessage :=
      if apiMessageOf e = "" then fallbackMessage
      else fallbackMessage ++ " " ++ apiMessageOf e
    loading := false }

/-- Method `loadItems(parentId)`: set `loading`, clear `errorMessage`, set
`currentParentId`, and issue the listing request (the `parentId` query
parameter is attached only when truthy). -/
def loadItems (parentId : Option String) (s : ComponentState) :
    ComponentState × List Request :=
  ({ s with loading := true, errorMessage := "", currentParentId := parentId },
   [Request.list (truthyParam parentId)])

/-- Method `loadPath()`: when `currentParentId` is falsy, set the breadcrumb
to the root-only segment with no request; otherwise issue the path request. -/
def loadPath (s : ComponentState) : ComponentState × List Request :=
  if jsTruthy s.currentParentId then
    (s, [Request.path (s.currentParentId.getD "")])
  else
    ({ s with path := [rootSegment] }, [])

/-- The `next` callback of `loadItems`: `items = response.items ?? []`,
clear `loading`, then call `loadPath()`.  A `none` argument models a
response whose `items` field is nullish. -/
def loadItemsSuccess (respItems : Option (List FileItem)) (s : ComponentState) :
    ComponentState × List Request :=
  loadPath { s with items := respItems.getD [], loading := false }

/-- The `error` callback of `loadItems`. -/
def loadItemsFailure (e : Option ErrBody) (s : ComponentState) :
    ComponentState × List Request :=
  (handleError e "Unable to load items." s, [])

/-- The `next` callback of `loadPath`:
`path = response.items ?? [{ id: 'root', name: 'Root', folder: true }]`. -/
def loadPathSuccess (respItems : Option (List PathItem)) (s : ComponentState) :
    ComponentState × List Request :=
  ({ s with path := respItems.getD [rootSegment] }, [])

/-- The `error` callback of `loadPath`. -/
def loadPathFailure (e : Option ErrBody) (s : ComponentState) :
    ComponentState × List Request :=
  (handleError e "Unable to load path." s, [])

/-- Method `navigateTo(item)`: breadcrumb click; the `'root'` sentinel maps
to a root listing, any other id to a listing of that folder. -/
def navigateTo (item : PathItem) (s : ComponentState) :
    ComponentState × List Request :=
  if item.id = "root" then loadItems none s else loadItems (some item.id) s

/-- Method `downloadItem(item)`: clear `errorMessage` and issue the blob
request.  The object-URL / anchor-click machinery of the `next` callback is
pure DOM work with no component-state effect. -/
def downloadItem (item : FileItem) (s : ComponentState) :
    ComponentState × List Request :=
  ({ s with errorMessage := "" }, [Request.download item.id])

/-- The `next` callback of `downloadItem`: creates and revokes an object
URL and clicks a transient anchor — no component-state change, no request. -/
def downloadSuccess (s : ComponentState) : ComponentState × List Request :=
  (s, [])

/-- The `error` callback of `downloadItem`. -/
def downloadFailure (e : Option ErrBody) (s : ComponentState) :
    ComponentState × List Request :=
  (handleError e "Unable to download file." s, [])

/-- Method `openItem(item)`: navigate into folders, download anything else. -/
def openItem (item : FileItem) (s : ComponentState) :
    ComponentState × List Request :=
  if item.folder then loadItems (some item.id) s else downloadItem item s

/-- Method `onUploadChange(event)`: no selected file is a silent no-op;
otherwise set `uploading`, clear `errorMessage`, and post the file with the
current parent attached when truthy. -/
def onUploadChange (input : UploadInput) (s : ComponentState) :
    ComponentState × UploadInput × List Request :=
  match input.file with
  | none => (s, input, [])
  | some f =>
    ({ s with uploading := true, errorMessage := "" }, input,
     [Request.upload f (truthyParam s.currentParentId)])

/-- The `next` callback of the upload request: clear `uploading`, reset the
input's `value`, and reload the current parent's listing. -/
def onUploadSuccess (input : UploadInput) (s : ComponentState) :
    ComponentState × UploadInput × List Request :=
  ((loadItems s.currentParentId { s with uploading := false }).1,
   { input with value := "" },
   (loadItems s.currentParentId { s with uploading := false }).2)

/-- The `error` callback of the upload request: clear `uploading`, then
`handleError`; the input element is left untouched. -/
def onUploadFailure (e : Option ErrBody) (input : UploadInput)
    (s : ComponentState) : ComponentState × UploadInput × List Request :=
  (handleError e "Unable to upload file." { s with uploading := false },
   input, [])

/-- `String.prototype.trim`: strip leading and trailing whitespace.  Modelled
structurally over the string's character list (rather than through core's
`String.trim`, whose substring auxiliaries are defined by well-founded
recursion) so that concrete instances evaluate. -/
def jsTrim (s : String) : String :=
  String.mk (((s.data.dropWhile Char.isWhitespace).reverse.dropWhile
    Char.isWhitespace).reverse)

/-- Method `createFolder()`: a name that is blank after trimming is a silent
no-op; otherwise clear `errorMessage` and post the JSON body. -/
def createFolder (s : ComponentState) : ComponentState × List Request :=
  if jsTrim s.newFolderName = "" then (s, [])
  else
    ({ s with errorMessage := "" },
     [Request.createItem (jsTrim s.newFolderName) true s.currentParentId])

/-- The `next` callback of `createFolder`: clear the pending name and reload
the current parent's listing. -/
def createFolderSuccess (s : ComponentState) : ComponentState × List Request :=
  loadItems s.currentParentId { s with newFolderName := "" }

/-- The `error` callback of `createFolder`. -/
def createFolderFailure (e : Option ErrBody) (s : ComponentState) :
    ComponentState × List Request :=
  (handleError e "Unable to create folder." s, [])

/-- Method `deleteItem(item)`: clear `errorMessage` and issue the delete. -/
def deleteItem (item : FileItem) (s : ComponentState) :
    ComponentState × List Request :=
  ({ s with errorMessage := "" }, [Request.delete item.id])

/-- The `next` callback of `deleteItem`: reload the current parent's
listing. -/
def deleteSuccess (s : ComponentState) : ComponentState × List Request :=
  loadItems s.currentParentId s

/-- The `error` callback of `deleteItem`. -/
def deleteFailure (e : Option ErrBody) (s : ComponentState) :
    ComponentState × List Request :=
  (handleError e "Unable to delete item." s, [])

/-- Method `ngOnInit()`: load the root listing. -/
def ngOnInit (s : ComponentState) : ComponentState × List Request :=
  loadItems none s

/-- The unit labels `['B', 'KB', 'MB', 'GB']` of `formatSize`. -/
def sizeUnits : List String := ["B", "KB", "MB", "GB"]

/-- The `while (value >= 1024 && unitIndex < units.length - 1)` loop of
`formatSize`.  `units.length - 1 = 3`, so the body runs at most three times;
the `fuel` argument (always `3` at the call site) bounds the recursion
structurally.  The running JavaScript number is modelled as a rational: for
an integer input below `2 ^ 53` every division by `1024` is exact in binary
floating point, so the float and the rational coincide. -/
def scaleSize : Nat → ℚ → Nat → ℚ × Nat
  | 0, value, unitIndex => (value, unitIndex)
  | fuel + 1, value, unitIndex =>
    if 1024 ≤ value ∧ unitIndex < 3 then
      scaleSize fuel (value / 1024) (unitIndex + 1)
    else (value, unitIndex)

/-- `Number.prototype.toFixed` for a nonnegative value and `digits ∈ {0, 1}`
(the only calls the source makes): round half up to `digits` decimal places
and print. -/
def toFixed (v : ℚ) (digits : Nat) : String :=
  if digits = 0 then toString ⌊v + 1 / 2⌋
  else
    toString (⌊v * 10 + 1 / 2⌋ / 10) ++ "." ++ toString (⌊v * 10 + 1 / 2⌋ % 10)

/-- The return statement of `formatSize`:
```${value.toFixed(value >= 10 || unitIndex === 0 ? 0 : 1)} ${units[unitIndex]}``. -/
def renderSize (value : ℚ) (unitIndex : Nat) : String :=
  toFixed value (if 10 ≤ value ∨ unitIndex = 0 then 0 else 1)
    ++ " " ++ sizeUnits.getD unitIndex ""

/-- Method `formatSize(size?: number)`.  `!size` is true for `undefined`
and for `0`. -/
def formatSize : Option Nat → String
  | none => "-"
  | some n =>
    if n = 0 then "-"
    else renderSize (scaleSize 3 (n : ℚ) 0).1 (scaleSize 3 (n : ℚ) 0).2

/-- The unit index described by the spec's words: repeated division by 1024
through B, KB, MB, GB, stopping at GB even if the value still exceeds 1024 —
i.e. index 0 below 1024, 1 below 1024², 2 below 1024³, else 3. -/
def specUnitIndex (n : Nat) : Nat :=
  if n < 1024 then 0 else if n < 1024 ^ 2 then 1 else if n < 1024 ^ 3 then 2 else 3

/-- `formatSize` as the spec's words describe it: `"-"` for an absent or zero
byte count, otherwise the value scaled into the unit picked by
`specUnitIndex` and rendered with the shared decimal rule. -/
def formatSizeSpec : Option Nat → String
  | none => "-"
  | some n =>
    if n = 0 then "-"
    else renderSize ((n : ℚ) / 1024 ^ specUnitIndex n) (specUnitIndex n)

/-- The `desc`-or-`message` text the error-mapping claim refers to: the
body's `desc` field when carried (present and non-empty), else its `message`
field when carried, else nothing. -/
def carriedDescOrMessage : Option ErrBody → Option String
  | none => none
  | some b =>
    match b.desc with
    | some d =>
      if d = "" then
        match b.message with
        | some m => if m = "" then none else some m
        | none => none
      else some d
    | none =>
      match b.message with
      | some m => if m = "" then none else some m
      | none => none

/-- The error text the claim predicts: the operation's fallback message, a
single space, and the carried `desc`/`message` value — or the fallback alone
when no such field is carried. -/
def claimErrorText (e : Option ErrBody) (fallback : String) : String :=
  match carriedDescOrMessage e with
  | some v => fallback ++ " " ++ v
  | none => fallback

/-- The six remote operations, used to quantify over failure paths. -/
inductive OpKind where
  | list
  | path
  | download
  | upload
  | createF
  | deleteF
  deriving Repr, DecidableEq

/-- The component state after the given operation's request fails with body
`e`.  For the upload the whole round trip is taken (`onUploadChange` with the
selected file `f`, then the `error` callback), since `onUploadChange` is what
raises `uploading`. -/
def failureResult (k : OpKind) (e : Option ErrBody) (input : UploadInput)
    (f : String) (s : ComponentState) : ComponentState :=
  match k with
  | OpKind.list => (loadItemsFailure e s).1
  | OpKind.path => (loadPathFailure e s).1
  | OpKind.download => (downloadFailure e s).1
  | OpKind.upload =>
    (onUploadFailure e input
      (onUploadChange { input with file := some f } s).1).1
  | OpKind.createF => (createFolderFailure e s).1
  | OpKind.deleteF => (deleteFailure e s).1

/-- The fallback message each operation passes to `handleError`. -/
def fallbackOf : OpKind → String
  | OpKind.list => "Unable to load items."
  | OpKind.path => "Unable to load path."
  | OpKind.download => "Unable to download file."
  | OpKind.upload => "Unable to upload file."
  | OpKind.createF => "Unable to create folder."
  | OpKind.deleteF => "Unable to delete item."

/-- A concrete folder entry, used to instantiate theorems. -/
def sampleFolder : FileItem :=
  { id := "dir1", parentId := none, name := "Docs", folder := true,
    creation := "2024-01-01", modification := "2024-01-02" }

/-- A concrete non-folder entry, used to instantiate theorems. -/
def sampleFile : FileItem :=
  { id := "file1", parentId := none, name := "a.txt", folder := false,
    creation := "2024-01-01", modification := "2024-01-02",
    mimeType := some "text/plain", size := some 1536 }

/-! ## Helper lemmas -/

/-- `handleError` produces exactly the error text the claims describe. -/
lemma handleError_errorMessage (e : Option ErrBody) (fb : String)
    (s : ComponentState) :
    (handleError e fb s).errorMessage = claimErrorText e fb := by
  rcases e with _ | ⟨d, m⟩
  · rfl
  · rcases d with _ | d <;> rcases m with _ | m <;>
      simp [handleError, apiMessageOf, claimErrorText, carriedDescOrMessage] <;>
      split_ifs <;> simp_all

lemma handleError_loading (e : Option ErrBody) (fb : String)
    (s : ComponentState) : (handleError e fb s).loading = false := rfl

lemma handleError_uploading (e : Option ErrBody) (fb : String)
    (s : ComponentState) : (handleError e fb s).uploading = s.uploading := rfl

lemma truthyParam_eq_self (o : Option String) (h : o ≠ some "") :
    truthyParam o = o := by
  rcases o with _ | s
  · rfl
  · have hs : ¬s = "" := fun hs => h (by rw [hs])
    simp [truthyParam, jsTruthy, hs]

/-! ## Claim theorems -/

/-- C1: a successful listing fetch replaces the entry list wholesale with the
response's items (empty when the response omits them), leaves `loading`
false, and then runs breadcrumb resolution (`loadPath`) at the very location
the fetch was issued for. -/
theorem listing_success_replaces_items (parentId : Option String)
    (respItems : Option (List FileItem)) (s : ComponentState) :
    (loadItemsSuccess respItems (loadItems parentId s).1).1.items
        = respItems.getD [] ∧
    (loadItemsSuccess respItems (loadItems parentId s).1).1.loading = false ∧
    (loadItemsSuccess respItems (loadItems parentId s).1).1.currentParentId
        = parentId ∧
    loadItemsSuccess respItems (loadItems parentId s).1 =
      loadPath { (loadItems parentId s).1 with
                   items := respItems.getD [], loading := false } := by
  refine ⟨?_, ?_, ?_, rfl⟩ <;>
    · unfold loadItemsSuccess loadItems loadPath
      by_cases h : jsTruthy parentId <;> simp [h]

/-- C2: every failed request routes through the shared error mapping — the
message becomes the operation's fallback plus a space plus the body's
carried `desc`/`message` value (the fallback alone when none is carried) —
and both `loading` and `uploading` are false afterwards.  The hypothesis
`s.uploading = false` states that no upload is in flight when the failing
request of another operation runs, i.e. the requests do not overlap. -/
theorem failed_request_error_and_flags (k : OpKind) (e : Option ErrBody)
    (input : UploadInput) (f : String) (s : ComponentState)
    (hu : s.uploading = false) :
    (failureResult k e input f s).errorMessage = claimErrorText e (fallbackOf k) ∧
    (failureResult k e input f s).loading = false ∧
    (failureResult k e input f s).uploading = false := by
  cases k <;>
    simp [failureResult, fallbackOf, loadItemsFailure, loadPathFailure,
      downloadFailure, onUploadFailure, onUploadChange, createFolderFailure,
      deleteFailure, handleError_errorMessage, handleError_loading,
      handleError_uploading, hu]

/-- Witness for C2: a failing delete at the initial state with body
`{ desc: "boom" }`. -/
theorem failed_request_error_and_flags_witness :
    initialState.uploading = false ∧
    ((failureResult OpKind.deleteF (some { desc := some "boom" })
        { value := "", file := none } "f.txt" initialState).errorMessage =
      claimErrorText (some { desc := some "boom" })
        (fallbackOf OpKind.deleteF) ∧
     (failureResult OpKind.deleteF (some { desc := some "boom" })
        { value := "", file := none } "f.txt" initialState).loading = false ∧
     (failureResult OpKind.deleteF (some { desc := some "boom" })
        { value := "", file := none } "f.txt" initialState).uploading = false) :=
  ⟨rfl, failed_request_error_and_flags OpKind.deleteF (some { desc := some "boom" })
    { value := "", file := none } "f.txt" initialState rfl⟩

/-- C5 counterexample: a successful breadcrumb fetch whose response carries a
present-but-empty `items` list yields an empty breadcrumb, not the root-only
segment the claim states. -/
theorem breadcrumb_empty_items_not_root :
    (loadPathSuccess (some [])
        { initialState with currentParentId := some "f1" }).1.path = [] ∧
    (loadPathSuccess (some [])
        { initialState with currentParentId := some "f1" }).1.path
      ≠ [rootSegment] := by
  decide

/-- C5 (amended): a successful breadcrumb fetch replaces the breadcrumb
wholesale with the response's items — also when that list is empty — and
falls back to the single root-only segment only when the `items` field is
absent; it issues no request. -/
theorem breadcrumb_success_replaces_path (respItems : Option (List PathItem))
    (s : ComponentState) :
    (loadPathSuccess respItems s).1.path =
      (match respItems with
       | some l => l
       | none => [rootSegment]) ∧
    (loadPathSuccess respItems s).2 = [] := by
  cases respItems <;> exact ⟨rfl, rfl⟩

/-- C6: at the root location breadcrumb resolution sets the breadcrumb to
exactly the single root segment and issues no request. -/
theorem root_breadcrumb_local (s : ComponentState)
    (h : s.currentParentId = none) :
    loadPath s = ({ s with path := [rootSegment] }, []) := by
  simp [loadPath, h, jsTruthy]

/-- Witness for C6 at the initial state. -/
theorem root_breadcrumb_local_witness :
    initialState.currentParentId = none ∧
    loadPath initialState = ({ initialState with path := [rootSegment] }, []) :=
  ⟨rfl, root_breadcrumb_local initialState rfl⟩

/-- C7: each mutation's success callback issues exactly one listing fetch,
and it targets the location current at completion time — a refresh, not a
jump to the root.  The hypothesis rules out the degenerate id `""`, which
JavaScript truthiness would drop from the query parameters. -/
theorem mutation_success_refreshes_current (s : ComponentState)
    (h : s.currentParentId ≠ some "") :
    (createFolderSuccess s).2 = [Request.list s.currentParentId] ∧
    (createFolderSuccess s).1.currentParentId = s.currentParentId ∧
    (deleteSuccess s).2 = [Request.list s.currentParentId] ∧
    (deleteSuccess s).1.currentParentId = s.currentParentId ∧
    ∀ input : UploadInput,
      (onUploadSuccess input s).2.2 = [Request.list s.currentParentId] ∧
      (onUploadSuccess input s).1.currentParentId = s.currentParentId := by
  refine ⟨?_, rfl, ?_, rfl, fun input => ⟨?_, rfl⟩⟩ <;>
    simp [createFolderSuccess, deleteSuccess, onUploadSuccess, loadItems,
      truthyParam_eq_self _ h]

/-- Witness for C7 at the initial state (root location). -/
theorem mutation_success_refreshes_current_witness :
    initialState.currentParentId ≠ some "" ∧
    ((createFolderSuccess initialState).2
        = [Request.list initialState.currentParentId] ∧
     (createFolderSuccess initialState).1.currentParentId
        = initialState.currentParentId ∧
     (deleteSuccess initialState).2
        = [Request.list initialState.currentParentId] ∧
     (deleteSuccess initialState).1.currentParentId
        = initialState.currentParentId ∧
     ∀ input : UploadInput,
       (onUploadSuccess input initialState).2.2
          = [Request.list initialState.currentParentId] ∧
       (onUploadSuccess input initialState).1.currentParentId
          = initialState.currentParentId) :=
  ⟨by decide, mutation_success_refreshes_current initialState (by decide)⟩

/-- C8: a blank (all-whitespace) folder name and an upload with no selected
file are silent no-ops — no request, no state change, no error message. -/
theorem blank_name_or_missing_file_noop (s : ComponentState)
    (input : UploadInput) (hname : jsTrim s.newFolderName = "")
    (hfile : input.file = none) :
    createFolder s = (s, []) ∧ onUploadChange input s = (s, input, []) := by
  constructor
  · simp [createFolder, hname]
  · simp [onUploadChange, hfile]

/-- Witness for C8: the folder name `"  "` and an empty file selection. -/
theorem blank_name_or_missing_file_noop_witness :
    jsTrim ({ initialState with newFolderName := "  " } :
        ComponentState).newFolderName = "" ∧
    ({ value := "x", file := none } : UploadInput).file = none ∧
    (createFolder { initialState with newFolderName := "  " } =
        ({ initialState with newFolderName := "  " }, []) ∧
      onUploadChange { value := "x", file := none }
          { initialState with newFolderName := "  " } =
        ({ initialState with newFolderName := "  " },
         { value := "x", file := none }, [])) :=
  ⟨by decide, rfl,
   blank_name_or_missing_file_noop { initialState with newFolderName := "  " }
     { value := "x", file := none } (by decide) rfl⟩

/-- C9: opening a folder entry moves the current location to that entry's
id; opening a non-folder entry is exactly a download — one download request,
and neither the invocation nor the download's success or failure callback
touches the location, the entry list or the breadcrumb. -/
theorem open_item_folder_vs_download (s : ComponentState) (f d : FileItem)
    (e : Option ErrBody) (hf : f.folder = true) (hd : d.folder = false) :
    (openItem f s).1.currentParentId = some f.id ∧
    openItem d s = downloadItem d s ∧
    (downloadItem d s).2 = [Request.download d.id] ∧
    (downloadItem d s).1.currentParentId = s.currentParentId ∧
    (downloadItem d s).1.items = s.items ∧
    (downloadItem d s).1.path = s.path ∧
    downloadSuccess (downloadItem d s).1 = ((downloadItem d s).1, []) ∧
    (downloadFailure e (downloadItem d s).1).1.currentParentId
        = s.currentParentId ∧
    (downloadFailure e (downloadItem d s).1).1.items = s.items ∧
    (downloadFailure e (downloadItem d s).1).1.path = s.path := by
  refine ⟨?_, ?_, rfl, rfl, rfl, rfl, rfl, rfl, rfl, rfl⟩
  · simp [openItem, hf, loadItems]
  · simp [openItem, hd]

/-- Witness for C9: a folder entry and a plain file entry at the initial
state. -/
theorem open_item_folder_vs_download_witness :
    (sampleFolder.folder = true ∧ sampleFile.folder = false) ∧
    ((openItem sampleFolder initialState).1.currentParentId
        = some sampleFolder.id ∧
     openItem sampleFile initialState = downloadItem sampleFile initialState ∧
     (downloadItem sampleFile initialState).2
        = [Request.download sampleFile.id] ∧
     (downloadItem sampleFile initialState).1.currentParentId
        = initialState.currentParentId ∧
     (downloadItem sampleFile initialState).1.items = initialState.items ∧
     (downloadItem sampleFile initialState).1.path = initialState.path ∧
     downloadSuccess (downloadItem sampleFile initialState).1
        = ((downloadItem sampleFile initialState).1, []) ∧
     (downloadFailure none (downloadItem sampleFile initialState).1).1.currentParentId
        = initialState.currentParentId ∧
     (downloadFailure none (downloadItem sampleFile initialState).1).1.items
        = initialState.items ∧
     (downloadFailure none (downloadItem sampleFile initialState).1).1.path
        = initialState.path) :=
  ⟨⟨rfl, rfl⟩,
   open_item_folder_vs_download initialState sampleFolder sampleFile none rfl rfl⟩

/-- C10: a failed create-folder leaves the pending name untouched and a
failed upload leaves the file input untouched; the invocations themselves do
not clear them either — only the success callbacks do. -/
theorem pending_fields_cleared_only_on_success (s : ComponentState)
    (input : UploadInput) (e : Option ErrBody) :
    (createFolderFailure e s).1.newFolderName = s.newFolderName ∧
    (onUploadFailure e input s).2.1 = input ∧
    (createFolder s).1.newFolderName = s.newFolderName ∧
    (onUploadChange input s).2.1 = input ∧
    (createFolderSuccess s).1.newFolderName = "" ∧
    (onUploadSuccess input s).2.1 = { input with value := "" } := by
  refine ⟨rfl, rfl, ?_, ?_, rfl, rfl⟩
  · unfold createFolder
    split <;> rfl
  · unfold onUploadChange
    rcases input with ⟨v, _ | f⟩ <;> rfl

/-! ## The scaling loop of formatSize, characterized -/

lemma scaleSize_eq_spec (n : Nat) :
    scaleSize 3 (n : ℚ) 0 = ((n : ℚ) / 1024 ^ specUnitIndex n, specUnitIndex n) := by
  have h1024 : (0 : ℚ) < 1024 := by norm_num
  have e3 : scaleSize 3 (n : ℚ) 0
      = if 1024 ≤ (n : ℚ) ∧ 0 < 3 then scaleSize 2 ((n : ℚ) / 1024) 1
        else ((n : ℚ), 0) := rfl
  have e2 : scaleSize 2 ((n : ℚ) / 1024) 1
      = if 1024 ≤ (n : ℚ) / 1024 ∧ 1 < 3 then
          scaleSize 1 ((n : ℚ) / 1024 / 1024) 2
        else ((n : ℚ) / 1024, 1) := rfl
  have e1 : scaleSize 1 ((n : ℚ) / 1024 / 1024) 2
      = if 1024 ≤ (n : ℚ) / 1024 / 1024 ∧ 2 < 3 then
          scaleSize 0 ((n : ℚ) / 1024 / 1024 / 1024) 3
        else ((n : ℚ) / 1024 / 1024, 2) := rfl
  have e0 : scaleSize 0 ((n : ℚ) / 1024 / 1024 / 1024) 3
      = ((n : ℚ) / 1024 / 1024 / 1024, 3) := rfl
  by_cases h1 : n < 1024
  · have hq1 : (n : ℚ) < 1024 := by exact_mod_cast h1
    rw [e3, if_neg (fun hc => absurd hc.1 (not_le.2 hq1))]
    norm_num [specUnitIndex, h1]
  · have ha : (1024 : ℚ) ≤ (n : ℚ) := by exact_mod_cast Nat.le_of_not_lt h1
    by_cases h2 : n < 1048576
    · have hq2 : (n : ℚ) < 1048576 := by exact_mod_cast h2
      have hb : ¬(1024 ≤ (n : ℚ) / 1024) := by
        rw [le_div_iff₀ h1024]
        intro hle
        nlinarith
      rw [e3, if_pos ⟨ha, by norm_num⟩, e2, if_neg (fun hc => hb hc.1)]
      norm_num [specUnitIndex, h1, h2]
    · have hq2 : (1048576 : ℚ) ≤ (n : ℚ) := by
        exact_mod_cast Nat.le_of_not_lt h2
      have hb : (1024 : ℚ) ≤ (n : ℚ) / 1024 := by
        rw [le_div_iff₀ h1024]
        nlinarith
      by_cases h3 : n < 1073741824
      · have hq3 : (n : ℚ) < 1073741824 := by exact_mod_cast h3
        have hc : ¬(1024 ≤ (n : ℚ) / 1024 / 1024) := by
          rw [div_div, le_div_iff₀ (by norm_num : (0 : ℚ) < 1024 * 1024)]
          intro hle
          nlinarith
        rw [e3, if_pos ⟨ha, by norm_num⟩, e2, if_pos ⟨hb, by norm_num⟩,
          e1, if_neg (fun hcc => hc hcc.1)]
        norm_num [specUnitIndex, h1, h2, h3, div_div]
      · have hq3 : (1073741824 : ℚ) ≤ (n : ℚ) := by
          exact_mod_cast Nat.le_of_not_lt h3
        have hc : (1024 : ℚ) ≤ (n : ℚ) / 1024 / 1024 := by
          rw [div_div, le_div_iff₀ (by norm_num : (0 : ℚ) < 1024 * 1024)]
          nlinarith
        rw [e3, if_pos ⟨ha, by norm_num⟩, e2, if_pos ⟨hb, by norm_num⟩,
          e1, if_pos ⟨hc, by norm_num⟩, e0]
        norm_num [specUnitIndex, h1, h2, h3, div_div]

lemma formatSize_eq_formatSizeSpec (o : Option Nat) :
    formatSize o = formatSizeSpec o := by
  rcases o with _ | n
  · rfl
  · by_cases h : n = 0
    · simp [formatSize, formatSizeSpec, h]
    · simp [formatSize, formatSizeSpec, h, scaleSize_eq_spec]

lemma formatSizeSpec_some (n : Nat) (h : ¬n = 0) :
    formatSizeSpec (some n)
      = renderSize ((n : ℚ) / 1024 ^ specUnitIndex n) (specUnitIndex n) := by
  simp [formatSizeSpec, h]

lemma renderSize_zero_digits (v : ℚ) (i : Nat) (h : 10 ≤ v ∨ i = 0) :
    renderSize v i = toFixed v 0 ++ " " ++ sizeUnits.getD i "" := by
  unfold renderSize
  rw [if_pos h]

lemma renderSize_one_digit (v : ℚ) (i : Nat) (h : ¬(10 ≤ v ∨ i = 0)) :
    renderSize v i = toFixed v 1 ++ " " ++ sizeUnits.getD i "" := by
  unfold renderSize
  rw [if_neg h]

lemma toFixed_zero_digits (v : ℚ) (z : ℤ) (h : ⌊v + 1 / 2⌋ = z) :
    toFixed v 0 = toString z := by
  unfold toFixed
  rw [if_pos rfl, h]

lemma toFixed_one_digit (v : ℚ) (z : ℤ) (h : ⌊v * 10 + 1 / 2⌋ = z) :
    toFixed v 1 = toString (z / 10) ++ "." ++ toString (z % 10) := by
  unfold toFixed
  rw [if_neg (by decide : ¬(1 = 0)), h]

lemma formatSize_val_2048 : formatSize (some 2048) = "2.0 KB" := by
  rw [formatSize_eq_formatSizeSpec, formatSizeSpec_some 2048 (by norm_num)]
  rw [show specUnitIndex 2048 = 1 by norm_num [specUnitIndex]]
  rw [show ((2048 : Nat) : ℚ) / 1024 ^ 1 = 2 by norm_num]
  rw [renderSize_one_digit 2 1 (by norm_num)]
  rw [toFixed_one_digit 2 20 (Int.floor_eq_iff.2 (by norm_num))]
  decide

lemma formatSize_val_1536 : formatSize (some 1536) = "1.5 KB" := by
  rw [formatSize_eq_formatSizeSpec, formatSizeSpec_some 1536 (by norm_num)]
  rw [show specUnitIndex 1536 = 1 by norm_num [specUnitIndex]]
  rw [show ((1536 : Nat) : ℚ) / 1024 ^ 1 = 3 / 2 by norm_num]
  rw [renderSize_one_digit (3 / 2) 1 (by norm_num)]
  rw [toFixed_one_digit (3 / 2) 15 (Int.floor_eq_iff.2 (by norm_num))]
  decide

lemma formatSize_val_15MiB : formatSize (some (15 * 1024 * 1024)) = "15 MB" := by
  rw [formatSize_eq_formatSizeSpec,
    formatSizeSpec_some (15 * 1024 * 1024) (by norm_num)]
  rw [show specUnitIndex (15 * 1024 * 1024) = 2 by norm_num [specUnitIndex]]
  rw [show ((15 * 1024 * 1024 : Nat) : ℚ) / 1024 ^ 2 = 15 by norm_num]
  rw [renderSize_zero_digits 15 2 (Or.inl (by norm_num))]
  rw [toFixed_zero_digits 15 15 (Int.floor_eq_iff.2 (by norm_num))]
  decide

lemma formatSize_val_512 : formatSize (some 512) = "512 B" := by
  rw [formatSize_eq_formatSizeSpec, formatSizeSpec_some 512 (by norm_num)]
  rw [show specUnitIndex 512 = 0 by norm_num [specUnitIndex]]
  rw [show ((512 : Nat) : ℚ) / 1024 ^ 0 = 512 by norm_num]
  rw [renderSize_zero_digits 512 0 (Or.inr rfl)]
  rw [toFixed_zero_digits 512 512 (Int.floor_eq_iff.2 (by norm_num))]
  decide

lemma formatSize_val_tib : formatSize (some (1024 ^ 4)) = "1024 GB" := by
  rw [formatSize_eq_formatSizeSpec, formatSizeSpec_some (1024 ^ 4) (by norm_num)]
  rw [show specUnitIndex (1024 ^ 4) = 3 by norm_num [specUnitIndex]]
  rw [show ((1024 ^ 4 : Nat) : ℚ) / 1024 ^ 3 = 1024 by norm_num]
  rw [renderSize_zero_digits 1024 3 (Or.inl (by norm_num))]
  rw [toFixed_zero_digits 1024 1024 (Int.floor_eq_iff.2 (by norm_num))]
  decide

/-- C3 counterexample: `formatSize(2048)` is `"2.0 KB"`, not `"2 KB"` — the
scaled value 2 is below 10 and the unit is KB, so by the function's own
decimal rule one decimal place is rendered. -/
theorem formatSize_2048_not_two_kb : formatSize (some 2048) ≠ "2 KB" := by
  rw [formatSize_val_2048]
  decide

/-- C3 (amended): `formatSize` returns `"-"` for an absent or zero byte
count; otherwise it scales by repeated division by 1024 through B, KB, MB,
GB (stopping at GB even when the value still exceeds 1024) and renders zero
decimals when the scaled value is ≥ 10 or the unit is B, one decimal
otherwise — in particular `formatSize(2048) = "2.0 KB"` (one decimal, since
2 < 10 and the unit is KB), `formatSize(1536) = "1.5 KB"`, and
`formatSize(15·1024·1024) = "15 MB"`. -/
theorem formatSize_follows_spec_rule :
    (∀ o : Option Nat, formatSize o = formatSizeSpec o) ∧
    formatSize none = "-" ∧
    formatSize (some 0) = "-" ∧
    formatSize (some 2048) = "2.0 KB" ∧
    formatSize (some 1536) = "1.5 KB" ∧
    formatSize (some (15 * 1024 * 1024)) = "15 MB" :=
  ⟨formatSize_eq_formatSizeSpec, rfl, rfl, formatSize_val_2048,
   formatSize_val_1536, formatSize_val_15MiB⟩

/-- C4 counterexample: `formatSize(512)` is `"512 B"`, not `"0 B"` (512 is
below 1024, so no division happens and the unit stays B), and
`formatSize(1024⁴)` is `"1024 GB"`, not `"1024.0 GB"` (the scaled value 1024
is ≥ 10, so zero decimals are rendered). -/
theorem formatSize_512_tib_counterexample :
    formatSize (some 512) ≠ "0 B" ∧
    formatSize (some (1024 ^ 4)) ≠ "1024.0 GB" := by
  constructor
  · rw [formatSize_val_512]
    decide
  · rw [formatSize_val_tib]
    decide

/-- C4 (amended): `formatSize(512) = "512 B"` and
`formatSize(1024⁴) = "1024 GB"` (capped at the GB unit, scaled value kept,
zero decimals since 1024 ≥ 10). -/
theorem formatSize_512_tib_values :
    formatSize (some 512) = "512 B" ∧
    formatSize (some (1024 ^ 4)) = "1024 GB" :=
  ⟨formatSize_val_512, formatSize_val_tib⟩
